import Mathlib

/-!
Shallow embedding of the csv2parquet conversion pipeline (src/src/lib.rs,
src/src/main.rs).  The generic `run<I, O>` function of lib.rs is embedded as a
pure function from a configuration (`Opts`) and an effect environment (`Env`)
to a result together with an ordered trace of the effects it performed.
External library behavior (the arrow CSV schema inference, the arrow JSON
schema parser, the parquet writer-property defaults) is modelled from the
libraries' documented behavior, since the repository delegates it wholesale.
-/

/-- Arrow data types relevant to CSV schema inference.  Mirrors the subset of
`arrow::datatypes::DataType` that `infer_field_schema` can produce, plus the
types a schema-override document may mention (abstracted into the same type). -/
inductive DataType where
  | Boolean
  | Int64
  | Float64
  | Date32
  | Date64
  | Utf8
  deriving DecidableEq, Repr

/-- A schema field: name plus data type (arrow `Field`, nullable flag elided). -/
structure SchemaField where
  name : String
  dataType : DataType
  deriving DecidableEq, Repr

/-- A schema is an ordered list of fields (arrow `Schema`, metadata elided). -/
abbrev Schema := List SchemaField

/-- A record batch, abstracted to the one property the pipeline's write step
checks: its column count (arrow `RecordBatch`). -/
structure Batch where
  numColumns : Nat
  deriving DecidableEq, Repr

/-- Error taxonomy of the run.  Constructors correspond to the
`arrow::error::ArrowError` variants the code constructs or passes through:
`IoError` ↔ `ArrowError::IoError`, `SchemaParseError` ↔ `ArrowError::ParseError`
(the variant the arrow library's `Schema::from` returns), `SchemaError` ↔
`ArrowError::SchemaError`, and `SchemaMismatchError` for the write-time
schema/batch disagreement reported by the parquet writer. -/
inductive ArrowErr where
  | IoError (msg : String)
  | SchemaParseError (msg : String)
  | SchemaError (msg : String)
  | SchemaMismatchError (msg : String)
  | EncodeError (msg : String)
  deriving DecidableEq, Repr

/-- Whether an error is the schema-parse variant. -/
def ArrowErr.isSchemaParse : ArrowErr → Bool
  | .SchemaParseError _ => true
  | _ => false

/-- Observable effects of one run, in the order the code performs them. -/
inductive Event where
  | openInput
  | openSchemaFile
  | parseSchemaJson
  | inferRead
  | printSchema
  | makeReader
  | createOutput
  | newWriter
  | readBatch (i : Nat)
  | writeBatch (i : Nat)
  | closeWriter
  deriving DecidableEq, Repr

/-! ### CLI option structures (lib.rs `Opts`, `CsvOpts`, `ParquetOpts`) -/

/-- CLI-side compression enum (lib.rs `ParquetCompression`). -/
inductive ParquetCompression where
  | UNCOMPRESSED
  | SNAPPY
  | GZIP
  | LZO
  | BROTLI
  | LZ4
  | ZSTD
  deriving DecidableEq, Repr

/-- CLI-side encoding enum (lib.rs `ParquetEncoding`). -/
inductive ParquetEncoding where
  | PLAIN
  | RLE
  | BIT_PACKED
  | DELTA_BINARY_PACKED
  | DELTA_LENGTH_BYTE_ARRAY
  | DELTA_BYTE_ARRAY
  | RLE_DICTIONARY
  deriving DecidableEq, Repr

/-- CLI-side statistics enum (lib.rs `ParquetEnabledStatistics`). -/
inductive ParquetEnabledStatistics where
  | None
  | Chunk
  | Page
  deriving DecidableEq, Repr

/-- parquet-library compression enum (`parquet::basic::Compression`). -/
inductive Compression where
  | UNCOMPRESSED
  | SNAPPY
  | GZIP
  | LZO
  | BROTLI
  | LZ4
  | ZSTD
  deriving DecidableEq, Repr

/-- parquet-library encoding enum (`parquet::basic::Encoding`). -/
inductive Encoding where
  | PLAIN
  | RLE
  | BIT_PACKED
  | DELTA_BINARY_PACKED
  | DELTA_LENGTH_BYTE_ARRAY
  | DELTA_BYTE_ARRAY
  | RLE_DICTIONARY
  deriving DecidableEq, Repr

/-- parquet-library statistics level (`parquet::file::properties::EnabledStatistics`). -/
inductive EnabledStatistics where
  | None
  | Chunk
  | Page
  deriving DecidableEq, Repr

/-- Input-format options for delimited text (lib.rs `CsvOpts`). -/
structure CsvOpts where
  header : Option Bool
  delimiter : Char
  deriving DecidableEq, Repr

/-- Output-format options for the parquet sink (lib.rs `ParquetOpts`). -/
structure ParquetOpts where
  compression : Option ParquetCompression
  encoding : Option ParquetEncoding
  data_pagesize_limit : Option Nat
  dictionary_pagesize_limit : Option Nat
  write_batch_size : Option Nat
  max_row_group_size : Option Nat
  created_by : Option String
  dictionary : Bool
  statistics : Option ParquetEnabledStatistics
  max_statistics_size : Option Nat
  deriving DecidableEq, Repr

/-- The generic option set of lib.rs `Opts<I, O>`, instantiated at the
CSV-input / parquet-output pair used by the csv2parquet binary. -/
structure Opts where
  input : String
  output : String
  schema_file : Option String
  max_read_records : Option Nat
  input_format : CsvOpts
  output_format : ParquetOpts
  print_schema : Bool
  dry : Bool

/-! ### Writer properties (parquet `WriterProperties` builder)

The record models the builder state; `defaultWriterProps` holds the parquet
library's documented defaults (`DEFAULT_DICTIONARY_ENABLED = true`,
`DEFAULT_STATISTICS_ENABLED = Page`, `DEFAULT_COMPRESSION = UNCOMPRESSED`,
`DEFAULT_WRITE_BATCH_SIZE = 1024`, `DEFAULT_PAGE_SIZE = 1024 * 1024`,
`DEFAULT_DICTIONARY_PAGE_SIZE_LIMIT = 1024 * 1024`,
`DEFAULT_MAX_ROW_GROUP_SIZE = 1024 * 1024`, `DEFAULT_MAX_STATISTICS_SIZE =
4096`; no default per-column encoding override). -/

structure WriterProps where
  dictionaryEnabled : Bool
  statistics : EnabledStatistics
  compression : Compression
  encoding : Option Encoding
  writeBatchSize : Nat
  dataPagesizeLimit : Nat
  dictionaryPagesizeLimit : Nat
  maxRowGroupSize : Nat
  createdBy : String
  maxStatisticsSize : Nat
  deriving DecidableEq, Repr

/-- Modelled from the parquet library: `WriterProperties::builder()` starts
from these documented defaults. -/
def defaultWriterProps : WriterProps where
  dictionaryEnabled := true
  statistics := .Page
  compression := .UNCOMPRESSED
  encoding := none
  writeBatchSize := 1024
  dataPagesizeLimit := 1024 * 1024
  dictionaryPagesizeLimit := 1024 * 1024
  maxRowGroupSize := 1024 * 1024
  createdBy := "parquet-rs"
  maxStatisticsSize := 4096

/-- The CLI→library statistics conversion in `ParquetOpts::try_new_writer`. -/
def convertStatistics : ParquetEnabledStatistics → EnabledStatistics
  | .Chunk => .Chunk
  | .Page => .Page
  | .None => .None

/-- The CLI→library compression conversion in `ParquetOpts::try_new_writer`. -/
def convertCompression : ParquetCompression → Compression
  | .UNCOMPRESSED => .UNCOMPRESSED
  | .SNAPPY => .SNAPPY
  | .GZIP => .GZIP
  | .LZO => .LZO
  | .BROTLI => .BROTLI
  | .LZ4 => .LZ4
  | .ZSTD => .ZSTD

/-- The CLI→library encoding conversion in `ParquetOpts::try_new_writer`. -/
def convertEncoding : ParquetEncoding → Encoding
  | .PLAIN => .PLAIN
  | .RLE => .RLE
  | .BIT_PACKED => .BIT_PACKED
  | .DELTA_BINARY_PACKED => .DELTA_BINARY_PACKED
  | .DELTA_LENGTH_BYTE_ARRAY => .DELTA_LENGTH_BYTE_ARRAY
  | .DELTA_BYTE_ARRAY => .DELTA_BYTE_ARRAY
  | .RLE_DICTIONARY => .RLE_DICTIONARY

/-! Each statement of the builder chain in `ParquetOpts::try_new_writer`
(lib.rs lines 310-376) becomes one step function; `try_new_writer_props`
composes them in the source's order, including the duplicated
dictionary-pagesize-limit application at lines 358-364. -/

/-- `WriterProperties::builder().set_dictionary_enabled(self.dictionary)`. -/
def applyDictionaryEnabled (o : ParquetOpts) (p : WriterProps) : WriterProps :=
  { p with dictionaryEnabled := o.dictionary }

/-- `if let Some(statistics) = &self.statistics { ... set_statistics_enabled }`. -/
def applyStatistics (o : ParquetOpts) (p : WriterProps) : WriterProps :=
  match o.statistics with
  | some s => { p with statistics := convertStatistics s }
  | none => p

/-- `if let Some(compression) = &self.compression { ... set_compression }`. -/
def applyCompression (o : ParquetOpts) (p : WriterProps) : WriterProps :=
  match o.compression with
  | some c => { p with compression := convertCompression c }
  | none => p

/-- `if let Some(encoding) = &self.encoding { ... set_encoding }`. -/
def applyEncoding (o : ParquetOpts) (p : WriterProps) : WriterProps :=
  match o.encoding with
  | some e => { p with encoding := some (convertEncoding e) }
  | none => p

/-- `if let Some(size) = self.write_batch_size { ... set_write_batch_size }`. -/
def applyWriteBatchSize (o : ParquetOpts) (p : WriterProps) : WriterProps :=
  match o.write_batch_size with
  | some n => { p with writeBatchSize := n }
  | none => p

/-- `if let Some(size) = self.data_pagesize_limit { ... set_data_pagesize_limit }`. -/
def applyDataPagesizeLimit (o : ParquetOpts) (p : WriterProps) : WriterProps :=
  match o.data_pagesize_limit with
  | some n => { p with dataPagesizeLimit := n }
  | none => p

/-- `if let Some(size) = self.dictionary_pagesize_limit { ... set_dictionary_pagesize_limit }`
(this statement appears twice in the source). -/
def applyDictionaryPagesizeLimit (o : ParquetOpts) (p : WriterProps) : WriterProps :=
  match o.dictionary_pagesize_limit with
  | some n => { p with dictionaryPagesizeLimit := n }
  | none => p

/-- `if let Some(size) = self.max_row_group_size { ... set_max_row_group_size }`. -/
def applyMaxRowGroupSize (o : ParquetOpts) (p : WriterProps) : WriterProps :=
  match o.max_row_group_size with
  | some n => { p with maxRowGroupSize := n }
  | none => p

/-- `if let Some(created_by) = &self.created_by { ... set_created_by }`. -/
def applyCreatedBy (o : ParquetOpts) (p : WriterProps) : WriterProps :=
  match o.created_by with
  | some s => { p with createdBy := s }
  | none => p

/-- `if let Some(size) = self.max_statistics_size { ... set_max_statistics_size }`. -/
def applyMaxStatisticsSize (o : ParquetOpts) (p : WriterProps) : WriterProps :=
  match o.max_statistics_size with
  | some n => { p with maxStatisticsSize := n }
  | none => p

/-- The writer-property construction of `ParquetOpts::try_new_writer`
(lib.rs 305-378), applied in source order; note the dictionary-pagesize-limit
step occurs twice, exactly as in the source. -/
def ParquetOpts.try_new_writer_props (o : ParquetOpts) : WriterProps :=
  applyMaxStatisticsSize o
    (applyCreatedBy o
      (applyMaxRowGroupSize o
        (applyDictionaryPagesizeLimit o
          (applyDictionaryPagesizeLimit o
            (applyDataPagesizeLimit o
              (applyWriteBatchSize o
                (applyEncoding o
                  (applyCompression o
                    (applyStatistics o
                      (applyDictionaryEnabled o defaultWriterProps))))))))))

/-- The same chain with the dictionary-pagesize-limit step applied once, as
the spec says the configuration pass should be; used to compare against the
duplicated chain of the source. -/
def ParquetOpts.try_new_writer_props_single (o : ParquetOpts) : WriterProps :=
  applyMaxStatisticsSize o
    (applyCreatedBy o
      (applyMaxRowGroupSize o
        (applyDictionaryPagesizeLimit o
          (applyDataPagesizeLimit o
            (applyWriteBatchSize o
              (applyEncoding o
                (applyCompression o
                  (applyStatistics o
                    (applyDictionaryEnabled o defaultWriterProps)))))))))

/-! ### Schema-override document parsing

`run` reads the override file with `serde_json::from_reader` and then calls
the arrow library's `Schema::from(&Value)`.  The JSON value is abstracted to
the three shapes `Schema::from` distinguishes; the per-field parse (arrow
`Field::from`) is abstracted to its outcome. -/

/-- The parsed override document, abstracted to what the arrow library's
`Schema::from` inspects: a JSON object whose `fields` entry is an array (each
element either parses to a field or fails with a message), an object without a
`fields` array, or a non-object value. -/
inductive JsonValue where
  | schemaObject (fields : List (Except String SchemaField))
  | objectNoFieldsArray
  | nonObject
  deriving Repr

/-- Collect field-parse results left to right, first failure wins (Rust
`iter().map(Field::from).collect::<Result<Vec<_>>>()`). -/
def collectFields : List (Except String SchemaField) → Except String Schema
  | [] => .ok []
  | .error m :: _ => .error m
  | .ok f :: rest =>
    match collectFields rest with
    | .ok fs => .ok (f :: fs)
    | .error m => .error m

/-- Modelled from the arrow library source: `Schema::from(&Value)` returns a
`ParseError` on a non-object value, on a missing or non-array `fields` entry,
and on any field that fails to parse; otherwise the ordered field list. -/
def schemaFromJson : JsonValue → Except ArrowErr Schema
  | .nonObject => .error (.SchemaParseError "Invalid json value type for schema")
  | .objectNoFieldsArray => .error (.SchemaParseError "Schema fields should be an array")
  | .schemaObject fs =>
    match collectFields fs with
    | .ok s => .ok s
    | .error m => .error (.SchemaParseError m)

/-! ### CSV schema inference

Modelled from the arrow library's `csv::reader::infer_file_schema` /
`infer_reader_schema` (called by `CsvOpts::infer_file_schema`, lib.rs 239-251):
header names come from the first record when `has_header`, else synthetic
`column_i` names; per column, the set of field types inferred from each cell
of the first `max_read_records` data records is collected (`infer_field_schema`
on the raw cell text is abstracted as a `classify` function), then resolved to
one type; returns the schema and the number of records read.  Tokenization by
the delimiter is abstracted: the input's content is given as the record list
the CSV reader produces for a given delimiter. -/

/-- Insertion into the per-column possibility set (Rust `HashSet::insert`),
modelled as first-occurrence-ordered list insertion. -/
def insertType (l : List DataType) (t : DataType) : List DataType :=
  if t ∈ l then l else l ++ [t]

/-- The per-column set of inferred cell types over the sampled records:
column `i` collects `classify cell` for each record whose `i`-th field exists. -/
def collectColumn (classify : String → DataType) (rows : List (List String))
    (i : Nat) : List DataType :=
  rows.foldl
    (fun acc row =>
      match row.get? i with
      | some s => insertType acc (classify s)
      | none => acc)
    []

/-- Resolution of a possibility set to a column type (arrow: one possibility
is taken as is; `{Int64, Float64}` widens to `Float64`; anything else,
including the empty set, falls back to `Utf8`). -/
def resolveColumnType (ps : List DataType) : DataType :=
  if ps.length = 1 then ps.headD .Utf8
  else if ps.length = 2 then
    if DataType.Int64 ∈ ps ∧ DataType.Float64 ∈ ps then .Float64 else .Utf8
  else .Utf8

/-- The data records inference samples: all records after the header row (if
any), truncated to the cap when one is given (`max_read_records.unwrap_or(MAX)`). -/
def sampledRecords (records : List (List String)) (maxReadRecords : Option Nat)
    (hasHeader : Bool) : List (List String) :=
  let dataRecords := if hasHeader then records.tail else records
  match maxReadRecords with
  | some n => dataRecords.take n
  | none => dataRecords

/-- The header names used for the schema: the first record when `has_header`,
else `column_1 ... column_n` sized by the first record. -/
def headerNames (records : List (List String)) (hasHeader : Bool) : List String :=
  if hasHeader then records.headD []
  else (List.range (records.headD []).length).map
    (fun i => "column_" ++ toString (i + 1))

/-- Modelled from the arrow library: `csv::reader::infer_file_schema`, as a
function of the classified record list.  Returns the schema paired with the
number of records read, as the library does. -/
def inferFileSchemaModel (classify : String → DataType)
    (records : List (List String)) (maxReadRecords : Option Nat)
    (hasHeader : Bool) : Schema × Nat :=
  let names := headerNames records hasHeader
  let taken := sampledRecords records maxReadRecords hasHeader
  let fields := (List.range names.length).map
    (fun i =>
      { name := names.getD i "",
        dataType := resolveColumnType (collectColumn classify taken i) })
  (fields, taken.length)

/-- `CsvOpts::infer_file_schema` (lib.rs 239-251): calls the arrow inference
with the configured delimiter, the cap, and `self.header.unwrap_or(true)`,
keeping only the schema of the returned pair.  `content` maps a delimiter to
the record list the CSV tokenizer yields for it. -/
def CsvOpts.infer_file_schema (o : CsvOpts) (classify : String → DataType)
    (maxReadRecords : Option Nat) (content : Char → List (List String)) : Schema :=
  (inferFileSchemaModel classify (content o.delimiter) maxReadRecords
    (o.header.getD true)).1

/-- The reader configuration `CsvOpts::make_reader` (lib.rs 253-263) passes to
the CSV reader builder: `has_header(self.header.unwrap_or(true))`,
`with_delimiter`, `with_schema`. -/
structure CsvReaderConfig where
  hasHeader : Bool
  delimiter : Char
  schema : Schema
  deriving Repr

/-- `CsvOpts::make_reader` (lib.rs 253-263), as the builder configuration it
constructs. -/
def CsvOpts.make_reader (o : CsvOpts) (schema_ref : Schema) : CsvReaderConfig :=
  { hasHeader := o.header.getD true
    delimiter := o.delimiter
    schema := schema_ref }

/-- Modelled from the spec (§4.3) and the parquet writer contract: `write`
fails with a `SchemaMismatchError` when the batch's column count disagrees
with the writer's bound schema, and succeeds otherwise. -/
def parquetWrite (schema : Schema) (b : Batch) : Except ArrowErr Unit :=
  if b.numColumns = schema.length then .ok ()
  else .error (.SchemaMismatchError "Record batch schema does not match writer schema")

/-! ### The effect environment and the embedded `run` -/

/-- Outcomes of the effects `run` performs, supplied by the environment:
file-system results, the external tokenizer/classifier, the reader's batch
stream, and the writer's per-call results. -/
structure Env where
  inputOpen : Except String Unit
  schemaFileOpen : Except String Unit
  schemaJson : Except String JsonValue
  classify : String → DataType
  inputContent : Char → List (List String)
  inferIo : Except String Unit
  makeReader : Except ArrowErr Unit
  createOutput : Except String Unit
  newWriter : Schema → WriterProps → Except ArrowErr Unit
  batches : List (Except ArrowErr Batch)
  writeResult : Nat → Batch → Except ArrowErr Unit
  closeResult : Except ArrowErr Unit

/-- The schema-resolution step of `run` (lib.rs 155-188): with a schema file
configured, open it (`IoError` on failure), parse it with serde (`IoError`
wrapping the message on failure), then `Schema::from`; otherwise infer from
the input, wrapping any inference failure in a `SchemaError`. -/
def resolveSchema (opts : Opts) (env : Env) : Except ArrowErr Schema × List Event :=
  match opts.schema_file with
  | some _ =>
    match env.schemaFileOpen with
    | .error m =>
      (.error (.IoError ("Error opening schema file: " ++ m)), [.openSchemaFile])
    | .ok _ =>
      match env.schemaJson with
      | .error m =>
        (.error (.IoError ("Error reading schema json: " ++ m)),
          [.openSchemaFile, .parseSchemaJson])
      | .ok j =>
        match schemaFromJson j with
        | .ok s => (.ok s, [.openSchemaFile, .parseSchemaJson])
        | .error e => (.error e, [.openSchemaFile, .parseSchemaJson])
  | none =>
    match env.inferIo with
    | .error m => (.error (.SchemaError ("Error inferring schema: " ++ m)), [.inferRead])
    | .ok _ =>
      (.ok (opts.input_format.infer_file_schema env.classify opts.max_read_records
        env.inputContent), [.inferRead])

/-- The batch loop of `run` (lib.rs 207-212): pull one stream element, return
its error immediately, else write the batch and return the write's error
immediately; `i` is the absolute index of the next batch. -/
def writeLoop (w : Nat → Batch → Except ArrowErr Unit) :
    List (Except ArrowErr Batch) → Nat → Except ArrowErr Unit × List Event
  | [], _ => (.ok (), [])
  | .error e :: _, i => (.error e, [.readBatch i])
  | .ok b :: rest, i =>
    match w i b with
    | .error e => (.error e, [.readBatch i, .writeBatch i])
    | .ok _ =>
      let r := writeLoop w rest (i + 1)
      (r.1, .readBatch i :: .writeBatch i :: r.2)

/-- The embedded `run` (lib.rs 143-218): open the input, resolve the schema,
print it when `print_schema || dry` and return success when `dry`, build the
reader, create the output file, build the writer from the constructed writer
properties, stream the batches, and close the writer, whose error becomes the
final result. -/
def run (opts : Opts) (env : Env) : Except ArrowErr Unit × List Event :=
  match env.inputOpen with
  | .error m => (.error (.IoError m), [.openInput])
  | .ok _ =>
    let rs := resolveSchema opts env
    match rs.1 with
    | .error e => (.error e, .openInput :: rs.2)
    | .ok schema =>
      let pev : List Event := if opts.print_schema || opts.dry then [.printSchema] else []
      if opts.dry then (.ok (), .openInput :: rs.2 ++ pev)
      else
        match env.makeReader with
        | .error e => (.error e, .openInput :: rs.2 ++ pev ++ [.makeReader])
        | .ok _ =>
          match env.createOutput with
          | .error m =>
            (.error (.IoError m), .openInput :: rs.2 ++ pev ++ [.makeReader, .createOutput])
          | .ok _ =>
            match env.newWriter schema opts.output_format.try_new_writer_props with
            | .error e =>
              (.error e,
                .openInput :: rs.2 ++ pev ++ [.makeReader, .createOutput, .newWriter])
            | .ok _ =>
              let lp := writeLoop env.writeResult env.batches 0
              match lp.1 with
              | .error e =>
                (.error e,
                  .openInput :: rs.2 ++ pev ++ [.makeReader, .createOutput, .newWriter]
                    ++ lp.2)
              | .ok _ =>
                match env.closeResult with
                | .ok _ =>
                  (.ok (),
                    .openInput :: rs.2 ++ pev ++ [.makeReader, .createOutput, .newWriter]
                      ++ lp.2 ++ [.closeWriter])
                | .error e =>
                  (.error e,
                    .openInput :: rs.2 ++ pev ++ [.makeReader, .createOutput, .newWriter]
                      ++ lp.2 ++ [.closeWriter])

/-! ### Concrete sample configurations (used to instantiate theorems) -/

/-- A fully succeeding environment over the two-column input
`a,b / 1,2 / 3,4`, with integer-classified cells. -/
def okEnv : Env where
  inputOpen := .ok ()
  schemaFileOpen := .ok ()
  schemaJson := .ok (.schemaObject [.ok ⟨"a", .Int64⟩])
  classify := fun _ => .Int64
  inputContent := fun _ => [["a", "b"], ["1", "2"], ["3", "4"]]
  inferIo := .ok ()
  makeReader := .ok ()
  createOutput := .ok ()
  newWriter := fun _ _ => .ok ()
  batches := [.ok ⟨2⟩, .ok ⟨2⟩]
  writeResult := fun _ _ => .ok ()
  closeResult := .ok ()

/-- Default CSV options: no explicit header flag, comma delimiter. -/
def baseCsvOpts : CsvOpts := ⟨none, ','⟩

/-- Parquet options with every optional field absent and the dictionary flag
not given (clap parses an absent flag as `false`). -/
def baseParquetOpts : ParquetOpts :=
  ⟨none, none, none, none, none, none, none, false, none, none⟩

/-- A baseline option set: no schema file, no cap, no printing, not dry. -/
def baseOpts : Opts :=
  ⟨"in.csv", "out.parquet", none, none, baseCsvOpts, baseParquetOpts, false, false⟩

/-- The baseline options with a schema-override file configured. -/
def overrideOpts : Opts := { baseOpts with schema_file := some "schema.json" }

/-- An environment whose override document is not valid JSON (the serde read
fails). -/
def malformedJsonEnv : Env := { okEnv with schemaJson := .error "expected value" }

/-- An environment whose input file cannot be opened and whose override
document would also fail to parse. -/
def badInputEnv : Env :=
  { okEnv with inputOpen := .error "No such file or directory",
               schemaJson := .error "expected value" }

/-- An environment whose stream yields one good batch and then an error, and
whose close would also fail. -/
def errorStreamEnv : Env :=
  { okEnv with batches := [.ok ⟨2⟩, .error (.EncodeError "bad row")] }

/-- An environment where all writes succeed but closing the writer fails. -/
def closeFailEnv : Env := { okEnv with closeResult := .error (.EncodeError "close failed") }

/-- Whether a run result is a schema-parse failure. -/
def runResultIsSchemaParse : Except ArrowErr Unit → Bool
  | .error e => e.isSchemaParse
  | .ok _ => false

/-! ### Helper lemmas on traces -/

/-- Schema resolution only ever performs schema-file opening, schema-JSON
parsing, or an inference read. -/
lemma resolveSchema_events (opts : Opts) (env : Env) :
    ∀ ev ∈ (resolveSchema opts env).2,
      ev = Event.openSchemaFile ∨ ev = Event.parseSchemaJson ∨ ev = Event.inferRead := by
  intro ev h
  unfold resolveSchema at h
  rcases hsf : opts.schema_file with _ | p <;> rw [hsf] at h
  · rcases hio : env.inferIo with m | u <;> rw [hio] at h <;> simp at h <;> tauto
  · rcases hso : env.schemaFileOpen with m | u <;> rw [hso] at h
    · simp at h; tauto
    · rcases hjs : env.schemaJson with m | j <;> rw [hjs] at h
      · simp at h; tauto
      · rcases hj : schemaFromJson j with s | e <;> simp [hj] at h <;> tauto

/-- Every event the batch loop emits is a read or a write of some batch index
at or above the starting index. -/
lemma writeLoop_events (w : Nat → Batch → Except ArrowErr Unit) :
    ∀ (bs : List (Except ArrowErr Batch)) (k : Nat) (ev : Event),
      ev ∈ (writeLoop w bs k).2 →
      ∃ j, k ≤ j ∧ (ev = Event.readBatch j ∨ ev = Event.writeBatch j) := by
  intro bs
  induction bs with
  | nil => intro k ev h; simp [writeLoop] at h
  | cons x rest ih =>
    intro k ev h
    rcases x with e | b
    · simp [writeLoop] at h
      exact ⟨k, le_refl k, Or.inl h⟩
    · unfold writeLoop at h
      rcases hw : w k b with e | u
      · rw [hw] at h
        simp at h
        rcases h with h | h
        · exact ⟨k, le_refl k, Or.inl h⟩
        · exact ⟨k, le_refl k, Or.inr h⟩
      · rw [hw] at h
        simp at h
        rcases h with h | h | h
        · exact ⟨k, le_refl k, Or.inl h⟩
        · exact ⟨k, le_refl k, Or.inr h⟩
        · obtain ⟨j, hkj, hj⟩ := ih (k + 1) ev h
          exact ⟨j, by omega, hj⟩

/-- If every stream element before position `i` is a successfully written
batch and position `i` is the first failure (a stream error or a failing
write), the loop returns exactly that error and emits no event about any
batch after position `i`. -/
lemma writeLoop_fails (w : Nat → Batch → Except ArrowErr Unit) :
    ∀ (bs : List (Except ArrowErr Batch)) (k i : Nat) (e : ArrowErr),
      (∀ j, j < i → ∃ b, bs.get? j = some (.ok b) ∧ w (k + j) b = .ok ()) →
      (bs.get? i = some (.error e) ∨
        ∃ b, bs.get? i = some (.ok b) ∧ w (k + i) b = .error e) →
      (writeLoop w bs k).1 = .error e ∧
      ∀ ev ∈ (writeLoop w bs k).2,
        ∃ j, j ≤ i ∧ (ev = Event.readBatch (k + j) ∨ ev = Event.writeBatch (k + j)) := by
  intro bs
  induction bs with
  | nil =>
    intro k i e _ hfail
    rcases hfail with hfail | ⟨b, hfail, _⟩ <;> simp at hfail
  | cons x rest ih =>
    intro k i e hok hfail
    rcases i with _ | i
    · rcases hfail with hfail | ⟨b, hb, hw⟩
      · simp at hfail
        subst hfail
        refine ⟨rfl, ?_⟩
        intro ev hev
        simp [writeLoop] at hev
        exact ⟨0, le_refl 0, Or.inl (by simpa using hev)⟩
      · simp at hb
        subst hb
        have hw0 : w k b = .error e := by simpa using hw
        refine ⟨by simp [writeLoop, hw0], ?_⟩
        intro ev hev
        simp [writeLoop, hw0] at hev
        rcases hev with hev | hev
        · exact ⟨0, le_refl 0, Or.inl (by simpa using hev)⟩
        · exact ⟨0, le_refl 0, Or.inr (by simpa using hev)⟩
    · obtain ⟨b, hb, hw⟩ := hok 0 (Nat.succ_pos i)
      simp at hb
      subst hb
      have hw0 : w k b = .ok () := by simpa using hw
      have hok' : ∀ j, j < i → ∃ b, rest.get? j = some (.ok b) ∧ w (k + 1 + j) b = .ok () := by
        intro j hj
        obtain ⟨b', hb', hw'⟩ := hok (j + 1) (by omega)
        refine ⟨b', by simpa using hb', ?_⟩
        have : k + (j + 1) = k + 1 + j := by omega
        rwa [this] at hw'
      have hfail' : rest.get? i = some (.error e) ∨
          ∃ b, rest.get? i = some (.ok b) ∧ w (k + 1 + i) b = .error e := by
        rcases hfail with hfail | ⟨b', hb', hw'⟩
        · exact Or.inl (by simpa using hfail)
        · refine Or.inr ⟨b', by simpa using hb', ?_⟩
          have : k + (i + 1) = k + 1 + i := by omega
          rwa [this] at hw'
      obtain ⟨hres, hevs⟩ := ih (k + 1) i e hok' hfail'
      constructor
      · simp [writeLoop, hw0, hres]
      · intro ev hev
        simp [writeLoop, hw0] at hev
        rcases hev with hev | hev | hev
        · exact ⟨0, Nat.zero_le _, Or.inl (by simpa using hev)⟩
        · exact ⟨0, Nat.zero_le _, Or.inr (by simpa using hev)⟩
        · obtain ⟨j, hji, hj⟩ := hevs ev hev
          refine ⟨j + 1, by omega, ?_⟩
          have : k + 1 + j = k + (j + 1) := by omega
          rw [this] at hj
          exact hj

/-- If every stream element is a batch and every write succeeds, the loop
returns success. -/
lemma writeLoop_all_ok (w : Nat → Batch → Except ArrowErr Unit) :
    ∀ (bs : List (Except ArrowErr Batch)) (k : Nat),
      (∀ j, j < bs.length → ∃ b, bs.get? j = some (.ok b) ∧ w (k + j) b = .ok ()) →
      (writeLoop w bs k).1 = .ok () := by
  intro bs
  induction bs with
  | nil => intro k _; rfl
  | cons x rest ih =>
    intro k hok
    obtain ⟨b, hb, hw⟩ := hok 0 (by simp)
    simp at hb
    subst hb
    have hw0 : w k b = .ok () := by simpa using hw
    have : (writeLoop w rest (k + 1)).1 = .ok () := by
      refine ih (k + 1) ?_
      intro j hj
      obtain ⟨b', hb', hw'⟩ := hok (j + 1) (by simp; omega)
      refine ⟨b', by simpa using hb', ?_⟩
      have harith : k + (j + 1) = k + 1 + j := by omega
      rwa [harith] at hw'
    simp [writeLoop, hw0, this]

/-! ### Shape lemmas for `run` -/

/-- With the input open failing, `run` stops at once with an `IoError`. -/
lemma run_input_open_fails (opts : Opts) (env : Env) (m : String)
    (h : env.inputOpen = .error m) :
    run opts env = (.error (.IoError m), [.openInput]) := by
  simp [run, h]

/-- With the input open succeeding and resolution failing, `run` returns the
resolution error after the resolution events. -/
lemma run_resolve_fails (opts : Opts) (env : Env) (e : ArrowErr) (ev : List Event)
    (hin : env.inputOpen = .ok ())
    (hres : resolveSchema opts env = (.error e, ev)) :
    run opts env = (.error e, .openInput :: ev) := by
  simp [run, hin, hres]

/-- With resolution succeeding and the dry flag set, `run` prints the schema
and returns success immediately. -/
lemma run_dry (opts : Opts) (env : Env) (s : Schema) (ev : List Event)
    (hin : env.inputOpen = .ok ())
    (hres : resolveSchema opts env = (.ok s, ev))
    (hdry : opts.dry = true) :
    run opts env = (.ok (), .openInput :: ev ++ [.printSchema]) := by
  simp [run, hin, hres, hdry]

/-- The trace of a non-dry run that reaches the batch loop, with the loop
failing: the loop error is the result and the writer is never closed. -/
lemma run_loop_error (opts : Opts) (env : Env) (s : Schema) (ev : List Event)
    (e : ArrowErr)
    (hin : env.inputOpen = .ok ())
    (hres : resolveSchema opts env = (.ok s, ev))
    (hdry : opts.dry = false)
    (hmr : env.makeReader = .ok ())
    (hco : env.createOutput = .ok ())
    (hnw : env.newWriter s opts.output_format.try_new_writer_props = .ok ())
    (hlp : (writeLoop env.writeResult env.batches 0).1 = .error e) :
    run opts env =
      (.error e,
        .openInput :: ev ++ (if opts.print_schema then [Event.printSchema] else [])
          ++ [.makeReader, .createOutput, .newWriter]
          ++ (writeLoop env.writeResult env.batches 0).2) := by
  simp [run, hin, hres, hdry, hmr, hco, hnw, hlp]

/-- The trace of a non-dry run whose batch loop succeeds: the writer is
closed last and the close outcome is the run's result. -/
lemma run_loop_ok (opts : Opts) (env : Env) (s : Schema) (ev : List Event)
    (hin : env.inputOpen = .ok ())
    (hres : resolveSchema opts env = (.ok s, ev))
    (hdry : opts.dry = false)
    (hmr : env.makeReader = .ok ())
    (hco : env.createOutput = .ok ())
    (hnw : env.newWriter s opts.output_format.try_new_writer_props = .ok ())
    (hlp : (writeLoop env.writeResult env.batches 0).1 = .ok ()) :
    run opts env =
      ((match env.closeResult with
        | .ok _ => .ok ()
        | .error e => .error e),
        .openInput :: ev ++ (if opts.print_schema then [Event.printSchema] else [])
          ++ [.makeReader, .createOutput, .newWriter]
          ++ (writeLoop env.writeResult env.batches 0).2 ++ [.closeWriter]) := by
  rcases hcl : env.closeResult with e | u <;>
    simp [run, hin, hres, hdry, hmr, hco, hnw, hlp, hcl]

/-- Events other than schema-file opening, schema-JSON parsing and inference
reads never occur during schema resolution. -/
lemma not_mem_resolve_events (opts : Opts) (env : Env) (x : Event)
    (hx1 : x ≠ Event.openSchemaFile) (hx2 : x ≠ Event.parseSchemaJson)
    (hx3 : x ≠ Event.inferRead) :
    x ∉ (resolveSchema opts env).2 := by
  intro hmem
  rcases resolveSchema_events opts env x hmem with h | h | h
  · exact hx1 h
  · exact hx2 h
  · exact hx3 h

/-- C1: with the dry flag set, `run` never attempts to create or truncate the
output file, never constructs the writer handle (nor the reader), and — when
the input opens and schema resolution succeeds — prints the resolved schema
and returns success, the dry return falling strictly after the resolution
events and strictly before any output-side event. -/
theorem C1_dry_run_has_no_output_side_effect (opts : Opts) (env : Env)
    (hdry : opts.dry = true) :
    Event.createOutput ∉ (run opts env).2 ∧
    Event.newWriter ∉ (run opts env).2 ∧
    Event.makeReader ∉ (run opts env).2 ∧
    (∀ s ev, env.inputOpen = .ok () → resolveSchema opts env = (.ok s, ev) →
      run opts env = (.ok (), .openInput :: ev ++ [.printSchema])) := by
  have hnc := not_mem_resolve_events opts env .createOutput (by simp) (by simp) (by simp)
  have hnw := not_mem_resolve_events opts env .newWriter (by simp) (by simp) (by simp)
  have hnm := not_mem_resolve_events opts env .makeReader (by simp) (by simp) (by simp)
  rcases hin : env.inputOpen with m | u
  · rw [run_input_open_fails opts env m hin]
    refine ⟨by simp, by simp, by simp, ?_⟩
    intro s ev hok
    exact absurd hok (by simp)
  · cases u
    rcases hres : resolveSchema opts env with ⟨r, ev⟩
    rw [hres] at hnc hnw hnm
    simp only at hnc hnw hnm
    rcases r with e | s
    · rw [run_resolve_fails opts env e ev hin hres]
      refine ⟨by simpa using hnc, by simpa using hnw, by simpa using hnm, ?_⟩
      intro s' ev' _ hres'
      exact absurd hres' (by simp)
    · rw [run_dry opts env s ev hin hres hdry]
      refine ⟨by simpa using hnc, by simpa using hnw, by simpa using hnm, ?_⟩
      intro s' ev' _ hres'
      simp only [Prod.mk.injEq, Except.ok.injEq] at hres'
      rw [hres'.2]

/-- Witness for C1 at a concrete dry configuration: the run succeeds with
only open/infer/print events, and no output creation occurs. -/
theorem C1_dry_run_has_no_output_side_effect_witness :
    Event.createOutput ∉ (run { baseOpts with dry := true } okEnv).2 ∧
    run { baseOpts with dry := true } okEnv =
      (.ok (), [.openInput, .inferRead, .printSchema]) := by
  obtain ⟨h1, _, _, h4⟩ :=
    C1_dry_run_has_no_output_side_effect { baseOpts with dry := true } okEnv rfl
  refine ⟨h1, ?_⟩
  have hres : resolveSchema { baseOpts with dry := true } okEnv =
      (.ok [⟨"a", .Int64⟩, ⟨"b", .Int64⟩], [.inferRead]) := by rfl
  simpa using h4 _ _ rfl hres

/-- A non-dry run whose reader construction fails stops there. -/
lemma run_reader_fails (opts : Opts) (env : Env) (s : Schema) (ev : List Event)
    (e : ArrowErr)
    (hin : env.inputOpen = .ok ())
    (hres : resolveSchema opts env = (.ok s, ev))
    (hdry : opts.dry = false)
    (hmr : env.makeReader = .error e) :
    run opts env =
      (.error e,
        .openInput :: ev ++ (if opts.print_schema then [Event.printSchema] else [])
          ++ [.makeReader]) := by
  simp [run, hin, hres, hdry, hmr]

/-- A non-dry run whose output-file creation fails stops there with an
`IoError`. -/
lemma run_create_fails (opts : Opts) (env : Env) (s : Schema) (ev : List Event)
    (m : String)
    (hin : env.inputOpen = .ok ())
    (hres : resolveSchema opts env = (.ok s, ev))
    (hdry : opts.dry = false)
    (hmr : env.makeReader = .ok ())
    (hco : env.createOutput = .error m) :
    run opts env =
      (.error (.IoError m),
        .openInput :: ev ++ (if opts.print_schema then [Event.printSchema] else [])
          ++ [.makeReader, .createOutput]) := by
  simp [run, hin, hres, hdry, hmr, hco]

/-- A non-dry run whose writer construction fails stops there. -/
lemma run_writer_fails (opts : Opts) (env : Env) (s : Schema) (ev : List Event)
    (e : ArrowErr)
    (hin : env.inputOpen = .ok ())
    (hres : resolveSchema opts env = (.ok s, ev))
    (hdry : opts.dry = false)
    (hmr : env.makeReader = .ok ())
    (hco : env.createOutput = .ok ())
    (hnw : env.newWriter s opts.output_format.try_new_writer_props = .error e) :
    run opts env =
      (.error e,
        .openInput :: ev ++ (if opts.print_schema then [Event.printSchema] else [])
          ++ [.makeReader, .createOutput, .newWriter]) := by
  simp [run, hin, hres, hdry, hmr, hco, hnw]

/-- Every event a run emits is the input open, a resolution event, the schema
print, the reader/output/writer constructions, a batch-loop event, or the
writer close. -/
lemma run_events (opts : Opts) (env : Env) :
    ∀ x ∈ (run opts env).2,
      x = Event.openInput ∨ x ∈ (resolveSchema opts env).2 ∨ x = Event.printSchema ∨
      x = Event.makeReader ∨ x = Event.createOutput ∨ x = Event.newWriter ∨
      x ∈ (writeLoop env.writeResult env.batches 0).2 ∨ x = Event.closeWriter := by
  intro x hx
  rcases hin : env.inputOpen with m | u
  · rw [run_input_open_fails opts env m hin] at hx
    simp at hx
    tauto
  · cases u
    rcases hres : resolveSchema opts env with ⟨r, ev⟩
    rcases r with e | s
    · rw [run_resolve_fails opts env e ev hin hres] at hx
      simp at hx ⊢
      tauto
    · rcases hdry : opts.dry with _ | _
      case true =>
        rw [run_dry opts env s ev hin hres hdry] at hx
        simp at hx ⊢
        tauto
      case false =>
        rcases hmr : env.makeReader with e | u
        · rw [run_reader_fails opts env s ev e hin hres hdry hmr] at hx
          rcases hps : opts.print_schema <;> simp [hps] at hx <;> simp at hx ⊢ <;> tauto
        · cases u
          rcases hco : env.createOutput with m | u
          · rw [run_create_fails opts env s ev m hin hres hdry hmr hco] at hx
            rcases hps : opts.print_schema <;> simp [hps] at hx <;> simp at hx ⊢ <;> tauto
          · cases u
            rcases hnw : env.newWriter s opts.output_format.try_new_writer_props with e | u
            · rw [run_writer_fails opts env s ev e hin hres hdry hmr hco hnw] at hx
              rcases hps : opts.print_schema <;> simp [hps] at hx <;> simp at hx ⊢ <;> tauto
            · cases u
              rcases hlp : (writeLoop env.writeResult env.batches 0).1 with e | u
              · rw [run_loop_error opts env s ev e hin hres hdry hmr hco hnw hlp] at hx
                rcases hps : opts.print_schema <;> simp [hps] at hx <;> simp at hx ⊢ <;> tauto
              · cases u
                rw [run_loop_ok opts env s ev hin hres hdry hmr hco hnw hlp] at hx
                rcases hps : opts.print_schema <;> simp [hps] at hx <;> simp at hx ⊢ <;> tauto

/-- C10: the input file is opened before schema resolution in every run — the
first trace event is always the input open — and when the input cannot be
opened the run fails with an `IoError` with trace exactly `[openInput]`: the
override document is neither opened nor parsed, so a missing input masks a
malformed override document. -/
theorem C10_input_opened_before_resolution (opts : Opts) (env : Env) :
    (run opts env).2.head? = some Event.openInput ∧
    ∀ m, env.inputOpen = .error m →
      run opts env = (.error (.IoError m), [.openInput]) := by
  constructor
  · rcases hin : env.inputOpen with m | u
    · rw [run_input_open_fails opts env m hin]; rfl
    · cases u
      rcases hres : resolveSchema opts env with ⟨r, ev⟩
      rcases r with e | s
      · rw [run_resolve_fails opts env e ev hin hres]; rfl
      · rcases hdry : opts.dry with _ | _
        case true => rw [run_dry opts env s ev hin hres hdry]; rfl
        case false =>
          rcases hmr : env.makeReader with e | u
          · rw [run_reader_fails opts env s ev e hin hres hdry hmr]; rfl
          · cases u
            rcases hco : env.createOutput with m | u
            · rw [run_create_fails opts env s ev m hin hres hdry hmr hco]; rfl
            · cases u
              rcases hnw : env.newWriter s opts.output_format.try_new_writer_props with e | u
              · rw [run_writer_fails opts env s ev e hin hres hdry hmr hco hnw]; rfl
              · cases u
                rcases hlp : (writeLoop env.writeResult env.batches 0).1 with e | u
                · rw [run_loop_error opts env s ev e hin hres hdry hmr hco hnw hlp]; rfl
                · cases u
                  rw [run_loop_ok opts env s ev hin hres hdry hmr hco hnw hlp]; rfl
  · intro m hm
    exact run_input_open_fails opts env m hm

/-- Witness for C10: with an unopenable input and a malformed override
document, the run fails with the input's `IoError` and performs only the
input open — the override is never consulted. -/
theorem C10_input_opened_before_resolution_witness :
    run overrideOpts badInputEnv =
      (.error (.IoError "No such file or directory"), [.openInput]) ∧
    (run overrideOpts badInputEnv).2.head? = some Event.openInput := by
  obtain ⟨h1, h2⟩ := C10_input_opened_before_resolution overrideOpts badInputEnv
  exact ⟨h2 _ rfl, h1⟩

/-- C2: on a run that reaches the batch loop, if position `i` of the stream
is the first failure — a stream error element, or a batch whose write fails —
the run returns exactly that error, no batch after position `i` is read or
written, and the writer handle is never closed. -/
theorem C2_first_stream_failure_short_circuits (opts : Opts) (env : Env)
    (s : Schema) (ev : List Event) (i : Nat) (e : ArrowErr)
    (hin : env.inputOpen = .ok ())
    (hres : resolveSchema opts env = (.ok s, ev))
    (hdry : opts.dry = false)
    (hmr : env.makeReader = .ok ())
    (hco : env.createOutput = .ok ())
    (hnw : env.newWriter s opts.output_format.try_new_writer_props = .ok ())
    (hpre : ∀ j, j < i →
      ∃ b, env.batches.get? j = some (.ok b) ∧ env.writeResult j b = .ok ())
    (hfail : env.batches.get? i = some (.error e) ∨
      ∃ b, env.batches.get? i = some (.ok b) ∧ env.writeResult i b = .error e) :
    (run opts env).1 = .error e ∧
    Event.closeWriter ∉ (run opts env).2 ∧
    ∀ j, i < j →
      Event.readBatch j ∉ (run opts env).2 ∧
      Event.writeBatch j ∉ (run opts env).2 := by
  have hpre0 : ∀ j, j < i →
      ∃ b, env.batches.get? j = some (.ok b) ∧ env.writeResult (0 + j) b = .ok () := by
    simpa using hpre
  have hfail0 : env.batches.get? i = some (.error e) ∨
      ∃ b, env.batches.get? i = some (.ok b) ∧ env.writeResult (0 + i) b = .error e := by
    simpa using hfail
  obtain ⟨hlp, hloopev⟩ := writeLoop_fails env.writeResult env.batches 0 i e hpre0 hfail0
  have hrun := run_loop_error opts env s ev e hin hres hdry hmr hco hnw hlp
  have hclose_ev : Event.closeWriter ∉ ev := by
    have h := not_mem_resolve_events opts env .closeWriter (by simp) (by simp) (by simp)
    rw [hres] at h
    simpa using h
  have hclose_loop : Event.closeWriter ∉ (writeLoop env.writeResult env.batches 0).2 := by
    intro hm
    obtain ⟨j, _, hj | hj⟩ := hloopev _ hm <;> simp at hj
  refine ⟨?_, ?_, ?_⟩
  · rw [hrun]
  · rw [hrun]
    rcases hps : opts.print_schema <;> simp [hps, hclose_ev, hclose_loop]
  · intro j hij
    have hread_ev : Event.readBatch j ∉ ev := by
      have h := not_mem_resolve_events opts env (.readBatch j) (by simp) (by simp) (by simp)
      rw [hres] at h
      simpa using h
    have hwrite_ev : Event.writeBatch j ∉ ev := by
      have h := not_mem_resolve_events opts env (.writeBatch j) (by simp) (by simp) (by simp)
      rw [hres] at h
      simpa using h
    have hread_loop : Event.readBatch j ∉ (writeLoop env.writeResult env.batches 0).2 := by
      intro hm
      obtain ⟨j', hj'le, hj' | hj'⟩ := hloopev _ hm <;> simp at hj'
      omega
    have hwrite_loop : Event.writeBatch j ∉ (writeLoop env.writeResult env.batches 0).2 := by
      intro hm
      obtain ⟨j', hj'le, hj' | hj'⟩ := hloopev _ hm <;> simp at hj'
      omega
    constructor
    · rw [hrun]
      rcases hps : opts.print_schema <;> simp [hps, hread_ev, hread_loop]
    · rw [hrun]
      rcases hps : opts.print_schema <;> simp [hps, hwrite_ev, hwrite_loop]

/-- Witness for C2 at a stream whose second element is an error: the run
returns that error and never closes the writer. -/
theorem C2_first_stream_failure_short_circuits_witness :
    (run baseOpts errorStreamEnv).1 = .error (.EncodeError "bad row") ∧
    Event.closeWriter ∉ (run baseOpts errorStreamEnv).2 := by
  obtain ⟨h1, h2, _⟩ :=
    C2_first_stream_failure_short_circuits baseOpts errorStreamEnv
      [⟨"a", .Int64⟩, ⟨"b", .Int64⟩] [.inferRead] 1 (.EncodeError "bad row")
      rfl (by rfl) rfl rfl rfl rfl
      (by
        intro j hj
        have hj0 : j = 0 := by omega
        subst hj0
        exact ⟨⟨2⟩, rfl, rfl⟩)
      (Or.inl rfl)
  exact ⟨h1, h2⟩

/-- C3: on a run that constructs the writer and whose every batch write
succeeds — including a zero-batch stream — `close` is invoked exactly once
(the trace contains exactly one close event), a failing close's error becomes
the run's final result, and a succeeding close yields success. -/
theorem C3_close_invoked_exactly_once (opts : Opts) (env : Env)
    (s : Schema) (ev : List Event)
    (hin : env.inputOpen = .ok ())
    (hres : resolveSchema opts env = (.ok s, ev))
    (hdry : opts.dry = false)
    (hmr : env.makeReader = .ok ())
    (hco : env.createOutput = .ok ())
    (hnw : env.newWriter s opts.output_format.try_new_writer_props = .ok ())
    (hall : ∀ j, j < env.batches.length →
      ∃ b, env.batches.get? j = some (.ok b) ∧ env.writeResult j b = .ok ()) :
    (run opts env).2.count Event.closeWriter = 1 ∧
    (∀ e, env.closeResult = .error e → (run opts env).1 = .error e) ∧
    (env.closeResult = .ok () → (run opts env).1 = .ok ()) := by
  have hall0 : ∀ j, j < env.batches.length →
      ∃ b, env.batches.get? j = some (.ok b) ∧ env.writeResult (0 + j) b = .ok () := by
    simpa using hall
  have hlp := writeLoop_all_ok env.writeResult env.batches 0 hall0
  have hrun := run_loop_ok opts env s ev hin hres hdry hmr hco hnw hlp
  have hclose_ev : Event.closeWriter ∉ ev := by
    have h := not_mem_resolve_events opts env .closeWriter (by simp) (by simp) (by simp)
    rw [hres] at h
    simpa using h
  have hclose_loop : Event.closeWriter ∉ (writeLoop env.writeResult env.batches 0).2 := by
    intro hm
    obtain ⟨j, _, hj | hj⟩ := writeLoop_events env.writeResult env.batches 0 _ hm <;>
      simp at hj
  refine ⟨?_, ?_, ?_⟩
  · rw [hrun]
    rcases hps : opts.print_schema <;>
      simp [hps, List.count_append, List.count_cons,
        List.count_eq_zero.mpr hclose_ev, List.count_eq_zero.mpr hclose_loop]
  · intro e hce
    rw [hrun]
    simp [hce]
  · intro hce
    rw [hrun]
    simp [hce]

/-- Witness for C3: with every write succeeding and a failing close, the
close error is the final result and exactly one close event occurs. -/
theorem C3_close_invoked_exactly_once_witness :
    (run baseOpts closeFailEnv).2.count Event.closeWriter = 1 ∧
    (run baseOpts closeFailEnv).1 = .error (.EncodeError "close failed") := by
  obtain ⟨h1, h2, _⟩ :=
    C3_close_invoked_exactly_once baseOpts closeFailEnv
      [⟨"a", .Int64⟩, ⟨"b", .Int64⟩] [.inferRead]
      rfl (by rfl) rfl rfl rfl rfl
      (by
        intro j hj
        have hj2 : j < 2 := by simpa [closeFailEnv, okEnv] using hj
        interval_cases j
        · exact ⟨⟨2⟩, rfl, rfl⟩
        · exact ⟨⟨2⟩, rfl, rfl⟩)
  exact ⟨h1, h2 _ rfl⟩

/-- With a schema-override file configured, resolution performs only the
override open and parse — never an inference read. -/
lemma resolveSchema_events_override (opts : Opts) (env : Env) (p : String)
    (hs : opts.schema_file = some p) :
    ∀ ev ∈ (resolveSchema opts env).2,
      ev = Event.openSchemaFile ∨ ev = Event.parseSchemaJson := by
  intro ev h
  unfold resolveSchema at h
  rw [hs] at h
  rcases hso : env.schemaFileOpen with m | u <;> rw [hso] at h
  · simp at h; tauto
  · rcases hjs : env.schemaJson with m | j <;> rw [hjs] at h
    · simp at h; tauto
    · rcases hj : schemaFromJson j with s | e <;> simp [hj] at h <;> tauto

/-- Every error of the modelled `Schema::from` is a schema-parse error. -/
lemma schemaFromJson_error_isSchemaParse (j : JsonValue) (e : ArrowErr)
    (h : schemaFromJson j = .error e) : e.isSchemaParse = true := by
  rcases j with fs | _ | _
  · unfold schemaFromJson at h
    rcases hc : collectFields fs with m | s <;> simp [hc] at h
    rw [← h]
    rfl
  · simp [schemaFromJson] at h
    rw [← h]
    rfl
  · simp [schemaFromJson] at h
    rw [← h]
    rfl

/-- C4: with a schema-override file configured, inference is never invoked
(no inference-read event occurs in any run), the resolved schema is
independent of the input's content (resolution agrees across environments
that agree on the override file only), and a column-count mismatch is not a
resolution failure: it surfaces only as a per-batch write failure, the write
failing with a `SchemaMismatchError` exactly when the batch width differs
from the override schema's width. -/
theorem C4_override_bypasses_inference (opts : Opts) (env : Env) (p : String)
    (hs : opts.schema_file = some p) :
    Event.inferRead ∉ (run opts env).2 ∧
    (∀ env2 : Env, env2.schemaFileOpen = env.schemaFileOpen →
      env2.schemaJson = env.schemaJson →
      resolveSchema opts env2 = resolveSchema opts env) ∧
    (∀ s ev b, resolveSchema opts env = (.ok s, ev) → b.numColumns ≠ s.length →
      parquetWrite s b =
        .error (.SchemaMismatchError "Record batch schema does not match writer schema")) ∧
    (∀ s ev b, resolveSchema opts env = (.ok s, ev) → b.numColumns = s.length →
      parquetWrite s b = .ok ()) := by
  refine ⟨?_, ?_, ?_, ?_⟩
  · intro hm
    rcases run_events opts env _ hm with h | h | h | h | h | h | h | h
    · simp at h
    · rcases resolveSchema_events_override opts env p hs _ h with h' | h' <;> simp at h'
    · simp at h
    · simp at h
    · simp at h
    · simp at h
    · obtain ⟨j, _, h' | h'⟩ := writeLoop_events env.writeResult env.batches 0 _ h <;>
        simp at h'
    · simp at h
  · intro env2 h1 h2
    unfold resolveSchema
    rw [hs]
    simp only [h1, h2]
  · intro s ev b _ hne
    simp [parquetWrite, hne]
  · intro s ev b _ heq
    simp [parquetWrite, heq]

/-- Witness for C4: a one-column override schema resolves identically under
emptied input content, no inference read occurs, and a two-column batch fails
its write with a schema mismatch while a one-column batch succeeds. -/
theorem C4_override_bypasses_inference_witness :
    Event.inferRead ∉ (run overrideOpts okEnv).2 ∧
    resolveSchema overrideOpts { okEnv with inputContent := fun _ => [] } =
      resolveSchema overrideOpts okEnv ∧
    parquetWrite [⟨"a", .Int64⟩] ⟨2⟩ =
      .error (.SchemaMismatchError "Record batch schema does not match writer schema") ∧
    parquetWrite [⟨"a", .Int64⟩] ⟨1⟩ = .ok () := by
  obtain ⟨h1, h2, h3, h4⟩ :=
    C4_override_bypasses_inference overrideOpts okEnv "schema.json" rfl
  exact ⟨h1, h2 _ rfl rfl, h3 _ [.openSchemaFile, .parseSchemaJson] ⟨2⟩ (by rfl) (by decide),
    h4 _ [.openSchemaFile, .parseSchemaJson] ⟨1⟩ (by rfl) (by decide)⟩

/-- C5 counterexample: with an override document that is not valid JSON, the
run fails with an `IoError` wrapping the serde message — not with a
schema-parse error as the claim states. -/
theorem C5_counterexample_malformed_json_is_io_error :
    (run overrideOpts malformedJsonEnv).1 =
      .error (.IoError "Error reading schema json: expected value") ∧
    runResultIsSchemaParse (run overrideOpts malformedJsonEnv).1 = false := by
  exact ⟨rfl, rfl⟩

/-- C5 (amended): with an override file configured, an unopenable override
file yields an `IoError`; a syntactically invalid override document also
yields an `IoError` (wrapping the serde message); only a structurally invalid
document (valid JSON that is not a schema) yields a `SchemaParseError`; and in
every one of these cases the run stops with trace
`[openInput, openSchemaFile(, parseSchemaJson)]` — before any input read. -/
theorem C5_override_error_classification (opts : Opts) (env : Env) (p : String)
    (hs : opts.schema_file = some p) (hin : env.inputOpen = .ok ()) :
    (∀ m, env.schemaFileOpen = .error m →
      run opts env = (.error (.IoError ("Error opening schema file: " ++ m)),
        [.openInput, .openSchemaFile])) ∧
    (∀ m, env.schemaFileOpen = .ok () → env.schemaJson = .error m →
      run opts env = (.error (.IoError ("Error reading schema json: " ++ m)),
        [.openInput, .openSchemaFile, .parseSchemaJson])) ∧
    (∀ j e, env.schemaFileOpen = .ok () → env.schemaJson = .ok j →
      schemaFromJson j = .error e →
      e.isSchemaParse = true ∧
      run opts env = (.error e, [.openInput, .openSchemaFile, .parseSchemaJson])) := by
  refine ⟨?_, ?_, ?_⟩
  · intro m hso
    have hres : resolveSchema opts env =
        (.error (.IoError ("Error opening schema file: " ++ m)), [.openSchemaFile]) := by
      unfold resolveSchema
      rw [hs, hso]
    exact run_resolve_fails opts env _ _ hin hres
  · intro m hso hjs
    have hres : resolveSchema opts env =
        (.error (.IoError ("Error reading schema json: " ++ m)),
          [.openSchemaFile, .parseSchemaJson]) := by
      unfold resolveSchema
      rw [hs, hso, hjs]
    exact run_resolve_fails opts env _ _ hin hres
  · intro j e hso hjs hsfj
    refine ⟨schemaFromJson_error_isSchemaParse j e hsfj, ?_⟩
    have hres : resolveSchema opts env =
        (.error e, [.openSchemaFile, .parseSchemaJson]) := by
      unfold resolveSchema
      rw [hs, hso, hjs]
      simp [hsfj]
    exact run_resolve_fails opts env _ _ hin hres

/-- Witness for C5 (amended), covering all three failure shapes at concrete
environments: unopenable override file, syntactically invalid JSON, and a
structurally invalid schema document. -/
theorem C5_override_error_classification_witness :
    run overrideOpts { okEnv with schemaFileOpen := .error "denied" } =
      (.error (.IoError "Error opening schema file: denied"),
        [.openInput, .openSchemaFile]) ∧
    run overrideOpts malformedJsonEnv =
      (.error (.IoError "Error reading schema json: expected value"),
        [.openInput, .openSchemaFile, .parseSchemaJson]) ∧
    run overrideOpts { okEnv with schemaJson := .ok .nonObject } =
      (.error (.SchemaParseError "Invalid json value type for schema"),
        [.openInput, .openSchemaFile, .parseSchemaJson]) := by
  refine ⟨?_, ?_, ?_⟩
  · obtain ⟨h1, _, _⟩ :=
      C5_override_error_classification overrideOpts
        { okEnv with schemaFileOpen := .error "denied" } "schema.json" rfl rfl
    exact h1 _ rfl
  · obtain ⟨_, h2, _⟩ :=
      C5_override_error_classification overrideOpts malformedJsonEnv "schema.json" rfl rfl
    exact h2 _ rfl rfl
  · obtain ⟨_, _, h3⟩ :=
      C5_override_error_classification overrideOpts
        { okEnv with schemaJson := .ok .nonObject } "schema.json" rfl rfl
    exact (h3 .nonObject _ rfl rfl rfl).2

/-- Inference depends on the cap only through the sampled record list. -/
lemma inferFileSchemaModel_congr_sampled (classify : String → DataType)
    (records : List (List String)) (c1 c2 : Option Nat) (h : Bool)
    (hs : sampledRecords records c1 h = sampledRecords records c2 h) :
    inferFileSchemaModel classify records c1 h =
      inferFileSchemaModel classify records c2 h := by
  unfold inferFileSchemaModel
  rw [hs]

/-- C6: a cap of exactly `0` is a meaningful configuration distinct from an
absent cap: with cap `0` every inferred column is text-typed (`Utf8`)
regardless of content, while an absent cap samples all data rows, and any cap
at least the data-row count infers exactly the unbounded schema. -/
theorem C6_max_read_records_cap (o : CsvOpts) (classify : String → DataType)
    (content : Char → List (List String)) :
    (∀ f ∈ o.infer_file_schema classify (some 0) content, f.dataType = .Utf8) ∧
    (∀ n, (sampledRecords (content o.delimiter) none (o.header.getD true)).length ≤ n →
      o.infer_file_schema classify (some n) content =
        o.infer_file_schema classify none content) := by
  constructor
  · intro f hf
    simp [CsvOpts.infer_file_schema, inferFileSchemaModel, sampledRecords] at hf
    obtain ⟨i, _, hfeq⟩ := hf
    rw [← hfeq]
    simp [collectColumn, resolveColumnType]
  · intro n hn
    unfold CsvOpts.infer_file_schema
    rw [inferFileSchemaModel_congr_sampled classify (content o.delimiter)
      (some n) none (o.header.getD true) ?_]
    unfold sampledRecords at hn ⊢
    exact List.take_of_length_le hn

/-- Witness for C6: on the concrete input `a,b / 1,2 / 3,4` with
integer-classified cells, cap `0` gives all-text, cap `5` equals unbounded,
and the two schemas differ — cap `0` is not treated as unset. -/
theorem C6_max_read_records_cap_witness :
    (∀ f ∈ baseCsvOpts.infer_file_schema (fun _ => .Int64) (some 0) okEnv.inputContent,
      f.dataType = .Utf8) ∧
    baseCsvOpts.infer_file_schema (fun _ => .Int64) (some 5) okEnv.inputContent =
      baseCsvOpts.infer_file_schema (fun _ => .Int64) none okEnv.inputContent ∧
    baseCsvOpts.infer_file_schema (fun _ => .Int64) (some 0) okEnv.inputContent ≠
      baseCsvOpts.infer_file_schema (fun _ => .Int64) none okEnv.inputContent := by
  obtain ⟨h1, h2⟩ :=
    C6_max_read_records_cap baseCsvOpts (fun _ => .Int64) okEnv.inputContent
  exact ⟨h1, h2 5 (by decide), by decide⟩

/-- The writer-property chain computed field by field: the dictionary flag is
applied unconditionally, every optional field falls back to the library
default when absent. -/
lemma try_new_writer_props_eq (o : ParquetOpts) :
    o.try_new_writer_props =
      { dictionaryEnabled := o.dictionary
        statistics := match o.statistics with
          | some s => convertStatistics s
          | none => defaultWriterProps.statistics
        compression := match o.compression with
          | some c => convertCompression c
          | none => defaultWriterProps.compression
        encoding := match o.encoding with
          | some e => some (convertEncoding e)
          | none => defaultWriterProps.encoding
        writeBatchSize := o.write_batch_size.getD defaultWriterProps.writeBatchSize
        dataPagesizeLimit := o.data_pagesize_limit.getD defaultWriterProps.dataPagesizeLimit
        dictionaryPagesizeLimit :=
          o.dictionary_pagesize_limit.getD defaultWriterProps.dictionaryPagesizeLimit
        maxRowGroupSize := o.max_row_group_size.getD defaultWriterProps.maxRowGroupSize
        createdBy := o.created_by.getD defaultWriterProps.createdBy
        maxStatisticsSize :=
          o.max_statistics_size.getD defaultWriterProps.maxStatisticsSize } := by
  rcases o with ⟨c, e, dp, dpl, wb, mrg, cb, d, st, ms⟩
  rcases c <;> rcases e <;> rcases dp <;> rcases dpl <;> rcases wb <;>
    rcases mrg <;> rcases cb <;> rcases st <;> rcases ms <;> rfl

/-- C7 counterexample: with no writer flag given at all, the constructed
properties differ from the library defaults — the dictionary-enabled setting
is forced to `false` although the library default is `true`. -/
theorem C7_counterexample_dictionary_not_default :
    ParquetOpts.try_new_writer_props baseParquetOpts ≠ defaultWriterProps ∧
    (ParquetOpts.try_new_writer_props baseParquetOpts).dictionaryEnabled = false ∧
    defaultWriterProps.dictionaryEnabled = true := by
  refine ⟨by decide, rfl, rfl⟩

/-- C7 (amended): every Option-typed writer option defers to the library's
documented default when absent — statistics included — but the dictionary
flag is a plain boolean applied unconditionally, so its absence maps the
dictionary-enabled setting to `false`, overriding the library default `true`;
with every optional field absent the constructed properties equal the library
defaults except for that one field. -/
theorem C7_optional_fields_defer_except_dictionary (o : ParquetOpts) :
    o.try_new_writer_props.dictionaryEnabled = o.dictionary ∧
    (o.statistics = none →
      o.try_new_writer_props.statistics = defaultWriterProps.statistics) ∧
    (o.compression = none →
      o.try_new_writer_props.compression = defaultWriterProps.compression) ∧
    (o.encoding = none →
      o.try_new_writer_props.encoding = defaultWriterProps.encoding) ∧
    (o.write_batch_size = none →
      o.try_new_writer_props.writeBatchSize = defaultWriterProps.writeBatchSize) ∧
    (o.data_pagesize_limit = none →
      o.try_new_writer_props.dataPagesizeLimit = defaultWriterProps.dataPagesizeLimit) ∧
    (o.dictionary_pagesize_limit = none →
      o.try_new_writer_props.dictionaryPagesizeLimit =
        defaultWriterProps.dictionaryPagesizeLimit) ∧
    (o.max_row_group_size = none →
      o.try_new_writer_props.maxRowGroupSize = defaultWriterProps.maxRowGroupSize) ∧
    (o.created_by = none →
      o.try_new_writer_props.createdBy = defaultWriterProps.createdBy) ∧
    (o.max_statistics_size = none →
      o.try_new_writer_props.maxStatisticsSize = defaultWriterProps.maxStatisticsSize) ∧
    (o.statistics = none → o.compression = none → o.encoding = none →
      o.write_batch_size = none → o.data_pagesize_limit = none →
      o.dictionary_pagesize_limit = none → o.max_row_group_size = none →
      o.created_by = none → o.max_statistics_size = none →
      o.try_new_writer_props =
        { defaultWriterProps with dictionaryEnabled := o.dictionary }) := by
  rw [try_new_writer_props_eq]
  refine ⟨rfl, ?_, ?_, ?_, ?_, ?_, ?_, ?_, ?_, ?_, ?_⟩
  · intro h; simp [h]
  · intro h; simp [h]
  · intro h; simp [h]
  · intro h; simp [h]
  · intro h; simp [h]
  · intro h; simp [h]
  · intro h; simp [h]
  · intro h; simp [h]
  · intro h; simp [h]
  · intro h1 h2 h3 h4 h5 h6 h7 h8 h9
    simp [h1, h2, h3, h4, h5, h6, h7, h8, h9]

/-- Witness for C7 (amended) at the all-absent option set: statistics and
every optional field equal the library defaults, the dictionary-enabled
setting equals `false`, and the whole record is the defaults with only that
field overridden. -/
theorem C7_optional_fields_defer_except_dictionary_witness :
    (ParquetOpts.try_new_writer_props baseParquetOpts).dictionaryEnabled = false ∧
    (ParquetOpts.try_new_writer_props baseParquetOpts).statistics =
      defaultWriterProps.statistics ∧
    ParquetOpts.try_new_writer_props baseParquetOpts =
      { defaultWriterProps with dictionaryEnabled := false } := by
  obtain ⟨h1, h2, _, _, _, _, _, _, _, _, hall⟩ :=
    C7_optional_fields_defer_except_dictionary baseParquetOpts
  exact ⟨h1, h2 rfl, hall rfl rfl rfl rfl rfl rfl rfl rfl rfl⟩

/-- C8: the explicit header flag is honored identically in schema inference
and in the reader built afterwards; an absent flag means `true` in both; the
reader and the inference always use the same header value. -/
theorem C8_header_flag_honored (o : CsvOpts) (classify : String → DataType)
    (cap : Option Nat) (content : Char → List (List String)) (sch : Schema) :
    (o.make_reader sch).hasHeader = o.header.getD true ∧
    o.infer_file_schema classify cap content =
      (inferFileSchemaModel classify (content o.delimiter) cap
        ((o.make_reader sch).hasHeader)).1 ∧
    (∀ b, o.header = some b → (o.make_reader sch).hasHeader = b) ∧
    (o.header = none → (o.make_reader sch).hasHeader = true) := by
  refine ⟨rfl, rfl, ?_, ?_⟩
  · intro b hb
    simp [CsvOpts.make_reader, hb]
  · intro hb
    simp [CsvOpts.make_reader, hb]

/-- Witness for C8: an explicit `header = false` is honored, and an absent
flag yields `true`. -/
theorem C8_header_flag_honored_witness :
    (CsvOpts.make_reader ⟨some false, ';'⟩ []).hasHeader = false ∧
    (CsvOpts.make_reader baseCsvOpts []).hasHeader = true := by
  obtain ⟨_, _, h3, _⟩ :=
    C8_header_flag_honored ⟨some false, ';'⟩ (fun _ => .Utf8) none (fun _ => []) []
  obtain ⟨_, _, _, h4⟩ :=
    C8_header_flag_honored baseCsvOpts (fun _ => .Utf8) none (fun _ => []) []
  exact ⟨h3 false rfl, h4 rfl⟩

/-- Re-applying the dictionary-pagesize-limit step is idempotent. -/
lemma applyDictionaryPagesizeLimit_idem (o : ParquetOpts) (p : WriterProps) :
    applyDictionaryPagesizeLimit o (applyDictionaryPagesizeLimit o p) =
      applyDictionaryPagesizeLimit o p := by
  rcases h : o.dictionary_pagesize_limit with _ | n <;>
    simp [applyDictionaryPagesizeLimit, h]

/-- C9: the duplicated dictionary-page-size application in the writer
configuration chain is idempotent — the properties built with the duplicated
step equal those built applying it once, so the duplicate does not change the
run's behavior. -/
theorem C9_duplicate_dictionary_pagesize_idempotent (o : ParquetOpts) :
    o.try_new_writer_props = o.try_new_writer_props_single := by
  unfold ParquetOpts.try_new_writer_props ParquetOpts.try_new_writer_props_single
  rw [applyDictionaryPagesizeLimit_idem]
